import Mathlib

/-!
Verification of the ENLIGHTEN spectrometer-GUI excerpt: a shallow embedding of
the horizontal-ROI crop transform (`enlighten/post_processing/HorizROIFeature.py`),
the feature-enablement state machines
(`HorizROIFeature.update_visibility`, `ExternalTriggerFeature`,
`RamanModeFeature.update_visibility`) and the cloud EEPROM-restore flow
(`enlighten/CloudManager.py`, `enlighten/common.py`).

Python `None` is embedded as `Option.none`; Python lists as `List Int`
(polymorphic where the source works on any array); code that can raise is
embedded in `Except PyError`; code that cannot raise is embedded as a total
function.  Mutation of `self` fields is embedded as explicit state passing.
-/

namespace Enlighten

/-- Python exceptions that the embedded code can raise. -/
inductive PyError
  | attributeError
  | credentialError
deriving DecidableEq, Repr

/-- Modelled from the spec: `wasatch.ROI` is not under `src/`; the spec's data
model describes it as "a `(start, end)` pixel-index pair with a validity
predicate (`valid()`: start < end, both within bounds) and a `crop(array)`
operation returning `array[start:end]`".  The bounds part of validity is
checked by the caller (`HorizROIFeature.crop` compares `roi.start` and
`roi.end` against `len(spectrum)` itself), so `valid` here is the
bounds-independent part: `start < end`.  The field `stop` embeds the Python
attribute `roi.end` (`end` is reserved in Lean). -/
structure ROI where
  start : Nat
  stop : Nat
deriving DecidableEq, Repr

/-- Modelled from the spec: validity predicate of a ROI, `start < end`
(start is a `Nat`, hence never negative). -/
def ROI.valid (r : ROI) : Bool := r.start < r.stop

/-- Modelled from the spec: `roi.crop(array)` returns `array[start:end]`,
the Python slice, i.e. drop `start` elements then keep `end - start`. -/
def ROI.crop (r : ROI) (a : List α) : List α :=
  (a.drop r.start).take (r.stop - r.start)

/-- Slice of the EEPROM record used by these features: the configured
horizontal ROI and the laser-presence flag. -/
structure EEPROM where
  horizontal_roi : Option ROI
  has_laser : Bool
deriving DecidableEq, Repr

/-- Embeds `eeprom.get_horizontal_roi()`. -/
def EEPROM.get_horizontal_roi (e : EEPROM) : Option ROI := e.horizontal_roi

/-- Embeds `eeprom.has_horizontal_roi()` (wasatch; modelled from the spec:
true exactly when a horizontal ROI is configured in the EEPROM). -/
def EEPROM.has_horizontal_roi (e : EEPROM) : Bool := e.horizontal_roi.isSome

/-- Modelled from the spec: the `wasatch.SpectrometerState` trigger-source
constants; only their distinctness matters to the embedded code. -/
def TRIGGER_SOURCE_INTERNAL : Nat := 0

/-- Modelled from the spec: external trigger-source constant. -/
def TRIGGER_SOURCE_EXTERNAL : Nat := 1

/-- Mutable per-device state record (spec section 6: "a mutable state record
(trigger source, ...)"). -/
structure SpectrometerState where
  trigger_source : Nat
deriving DecidableEq, Repr

/-- Hardware-capability record (spec section 6: capability queries). -/
structure HardwareInfo where
  supports_triggering : Bool
deriving DecidableEq, Repr

/-- Slice of `SpectrometerSettings` used by the embedded features. -/
structure SpectrometerSettings where
  eeprom : EEPROM
  state : SpectrometerState
  hardware_info : HardwareInfo
  is_micro : Bool
  wavelengths : Option (List Int)
  wavenumbers : Option (List Int)
deriving DecidableEq, Repr

/-- A connected spectrometer as seen by the features. -/
structure Spectrometer where
  settings : SpectrometerSettings
deriving DecidableEq, Repr

/-- The slice of the global controller `ctl` that the embedded code reads:
`ctl.multispec.current_spectrometer()`, `ctl.page_nav.doing_expert()`,
`ctl.page_nav.doing_raman()` and `ctl.vcr_controls.is_paused()`. -/
structure Ctl where
  current_spectrometer : Option Spectrometer
  doing_expert : Bool
  doing_raman : Bool
  is_paused : Bool
deriving DecidableEq, Repr

namespace HorizROIFeature

/-- Embeds the ROI-lookup chain of `HorizROIFeature.crop` (lines 158-167):

    if roi is None and settings: roi = spec.settings.eeprom.get_horizontal_roi()
    if roi is None and spec:     roi = spec.settings.eeprom.get_horizontal_roi()
    if roi is None:
        spec = self.ctl.multispec.current_spectrometer()
        if spec: roi = spec.settings.eeprom.get_horizontal_roi()

Note the first branch tests `settings` but dereferences `spec`: when
`settings` is given and `spec` is `None`, Python raises `AttributeError`. -/
def resolve_roi (ctl : Ctl) (spec : Option Spectrometer) (roi : Option ROI)
    (settings : Option SpectrometerSettings) : Except PyError (Option ROI) :=
  match roi, settings with
  | none, some _ =>
    match spec with
    | none => Except.error PyError.attributeError
    | some sp => Except.ok (resolve_roi_rest ctl spec sp.settings.eeprom.get_horizontal_roi)
  | _, _ => Except.ok (resolve_roi_rest ctl spec roi)
where
  /-- The second and third lookup steps (lines 160-165), which cannot raise. -/
  resolve_roi_rest (ctl : Ctl) (spec : Option Spectrometer) (roi : Option ROI) :
      Option ROI :=
    let roi1 :=
      match roi, spec with
      | none, some sp => sp.settings.eeprom.get_horizontal_roi
      | r, _ => r
    match roi1 with
    | some r => some r
    | none =>
      match ctl.current_spectrometer with
      | some sp => sp.settings.eeprom.get_horizontal_roi
      | none => none

/-- Embeds the slicing tail of `HorizROIFeature.crop` (lines 169-174) once a
ROI has been resolved: return the input unchanged when the ROI is invalid or
out of bounds, else `roi.crop(spectrum)`. -/
def cropArr (r : ROI) (spectrum : List α) : List α :=
  if r.valid = false ∨ spectrum.length ≤ r.start ∨ spectrum.length ≤ r.stop then
    spectrum
  else
    r.crop spectrum

/-- Embeds `HorizROIFeature.crop(self, spectrum, spec=None, roi=None,
settings=None)` (lines 147-174).  Python returns `None` when `spectrum` is
`None`; it raises `AttributeError` when the lookup chain dereferences a `None`
`spec`; otherwise it returns an array. -/
def crop (ctl : Ctl) (spectrum : Option (List α)) (spec : Option Spectrometer)
    (roi : Option ROI) (settings : Option SpectrometerSettings) :
    Except PyError (Option (List α)) :=
  match spectrum with
  | none => Except.ok none
  | some arr =>
    match resolve_roi ctl spec roi settings with
    | Except.error e => Except.error e
    | Except.ok none => Except.ok (some arr)
    | Except.ok (some r) => Except.ok (some (cropArr r arr))

end HorizROIFeature

/-- Modelled from the spec: the array bundle held by a
`wasatch.ProcessedReading` (not under `src/`); the spec's data model calls it
"a bundle of parallel arrays (processed spectrum, raw, dark, reference,
wavelengths, wavenumbers) all indexed by pixel position".  The constructor
`ProcessedReading(settings=settings)` leaves every array `None`. -/
structure ReadingData where
  processed : Option (List Int)
  raw : Option (List Int)
  dark : Option (List Int)
  reference : Option (List Int)
  wavelengths : Option (List Int)
  wavenumbers : Option (List Int)
  settings : Option SpectrometerSettings
deriving DecidableEq, Repr

/-- Embeds `ProcessedReading(settings=settings)`: a fresh bundle with every
array absent. -/
def ReadingData.init (settings : Option SpectrometerSettings) : ReadingData :=
  { processed := none, raw := none, dark := none, reference := none,
    wavelengths := none, wavenumbers := none, settings := settings }

/-- A `ProcessedReading` as `HorizROIFeature.process` sees it: the array
bundle plus the `cropped` side-channel attached by the feature. -/
structure ProcessedReading extends ReadingData where
  cropped : Option ReadingData
deriving DecidableEq, Repr

namespace HorizROIFeature

/-- Embeds the settings-resolution chain of `HorizROIFeature.process`
(lines 190-197): argument, then `pr.settings`, then the current
spectrometer's settings. -/
def process_settings (ctl : Ctl) (pr_settings : Option SpectrometerSettings)
    (settings : Option SpectrometerSettings) : Option SpectrometerSettings :=
  let s1 := match settings with
    | some s => some s
    | none => pr_settings
  match s1 with
  | some s => some s
  | none => (ctl.current_spectrometer).map Spectrometer.settings

/-- Embeds `HorizROIFeature.process(self, pr, settings=None)` (lines
183-210).  `self.enabled` is passed explicitly; the result is the updated
`pr`.  Every inner `self.crop(x, roi=roi)` call passes a non-`None` `roi`, so
by `crop_given_roi` below it equals `Option.map (cropArr roi) x`; the
assignments mirror the source lines 204-208: `prc.reference` is computed from
`pr.raw`, `prc.dark` is never assigned, and wavelengths/wavenumbers come from
`settings`, not from `pr`. -/
def process (ctl : Ctl) (enabled : Bool) (pr : Option ProcessedReading)
    (settings : Option SpectrometerSettings) : Option ProcessedReading :=
  if enabled = false then pr
  else
    match pr with
    | none => none
    | some p =>
      match p.processed with
      | none => some p
      | some _ =>
        match process_settings ctl p.settings settings with
        | none => some p
        | some st =>
          match st.eeprom.get_horizontal_roi with
          | none => some p
          | some roi =>
            let prc : ReadingData :=
              { ReadingData.init (some st) with
                processed := Option.map (cropArr roi) p.processed,
                raw := Option.map (cropArr roi) p.raw,
                reference := Option.map (cropArr roi) p.raw,
                wavelengths := Option.map (cropArr roi) st.wavelengths,
                wavenumbers := Option.map (cropArr roi) st.wavenumbers }
            some { p with cropped := some prc }

/-- The two flags of `HorizROIFeature` mutated by its callbacks, plus the two
widget-visibility flags its `update_visibility` drives. -/
structure State where
  enabled : Bool
  user_requested_enabled : Bool
  button_visible : Bool
  cb_editing_visible : Bool
deriving DecidableEq, Repr

/-- Embeds `HorizROIFeature.update_visibility` (lines 108-142), restricted to
the flags it computes: early return when no spectrometer is selected;
otherwise `cb_editing` visibility tracks expert mode, `enabled` is reset to
`user_requested_enabled`, and the button is shown (keeping `enabled`) when a
horizontal ROI is configured, else hidden with `enabled` forced off.
Stylesheet, tooltip, region and observer side effects are pure display
actions with no further state. -/
def update_visibility (ctl : Ctl) (s : State) : State :=
  match ctl.current_spectrometer with
  | none => s
  | some spec =>
    let s1 : State := { s with cb_editing_visible := ctl.doing_expert }
    let s2 : State := { s1 with enabled := s1.user_requested_enabled }
    if spec.settings.eeprom.has_horizontal_roi then
      { s2 with button_visible := true }
    else
      { s2 with button_visible := false, enabled := false }

/-- Embeds `HorizROIFeature.button_callback` (lines 86-92): negate `enabled`,
copy it to `user_requested_enabled`, then run `update_visibility`. -/
def button_callback (ctl : Ctl) (s : State) : State :=
  let e := !s.enabled
  update_visibility ctl { s with enabled := e, user_requested_enabled := e }

end HorizROIFeature

namespace ExternalTriggerFeature

/-- Observable side effects of `ExternalTriggerFeature.enable_callback`. -/
inductive Effect
  | change_device_setting (setting : String) (value : Nat)
  | marquee_info (msg : String)
  | reset_acquisition_timeout
deriving DecidableEq, Repr

/-- Embeds `ExternalTriggerFeature.update_visibility` (lines 25-38),
returning the `(enabled, checkbox-visible)` pair.  With no spectrometer
selected the checkbox is hidden and `self.enabled` keeps its prior value
`enabled0`; otherwise the checkbox is shown iff triggering is supported and
`enabled` is recomputed from the capability flag and the device's current
trigger source. -/
def update_visibility (ctl : Ctl) (enabled0 : Bool) : Bool × Bool :=
  match ctl.current_spectrometer with
  | none => (enabled0, false)
  | some spec =>
    let supports_triggering := spec.settings.hardware_info.supports_triggering
    let enabled := supports_triggering &&
      decide (spec.settings.state.trigger_source = TRIGGER_SOURCE_EXTERNAL)
    (enabled, supports_triggering)

/-- Embeds `ExternalTriggerFeature.enable_callback` (lines 43-74), returning
the new `enabled` flag and the list of effects performed: early return when
no spectrometer; `enabled` tracks the checkbox; when the computed trigger
source equals the device's current one the callback returns before any
effect; otherwise it writes the setting, optionally shows the marquee
message, and resets the acquisition timeout. -/
def enable_callback (ctl : Ctl) (enabled0 : Bool) (checked : Bool) :
    Bool × List Effect :=
  match ctl.current_spectrometer with
  | none => (enabled0, [])
  | some spec =>
    let enabled := checked
    let value := if enabled then TRIGGER_SOURCE_EXTERNAL else TRIGGER_SOURCE_INTERNAL
    if value = spec.settings.state.trigger_source then
      (enabled, [])
    else
      (enabled,
        [Effect.change_device_setting "trigger_source" value] ++
        (if enabled then [Effect.marquee_info "waiting for trigger"] else []) ++
        [Effect.reset_acquisition_timeout])

end ExternalTriggerFeature

namespace RamanModeFeature

/-- Embeds the visibility computation of `RamanModeFeature.update_visibility`
(lines 56-69): `False` when no spectrometer is selected, else the conjunction
of the is-micro capability, the Raman UI page, the paused state and the laser
flag.  The prior value `visible0` of `self.visible` is passed to exhibit that
the recomputation never reads it. -/
def update_visibility (ctl : Ctl) (visible0 : Bool) : Bool :=
  match ctl.current_spectrometer with
  | none =>
    let _ := visible0
    false
  | some spec =>
    spec.settings.is_micro && ctl.doing_raman && ctl.is_paused &&
      spec.settings.eeprom.has_laser

end RamanModeFeature

/-- Outcomes of the external world seen by `CloudManager.perform_restore`:
the serial-number dialog result, whether the cognito credential exchange in
`create_session` succeeds, whether `bucket.download_file` succeeds, and what
`eeprom_editor.import_eeprom` reports.  Paths are embedded as their
`os.path.join` component lists, so they are platform-separator independent;
`os.name == "nt"` and the home directory are inputs. -/
structure CloudEnv where
  prompt_result : Option String
  credentials_ok : Bool
  download_ok : Bool
  import_ok : Bool
  os_is_nt : Bool
  home : String
deriving DecidableEq, Repr

/-- Embeds `common.get_default_data_dir` (lines 104-107): on Windows
(`os.name == "nt"`) `~/Documents/EnlightenSpectra` with `~` expanded to the
home directory, otherwise `$HOME/EnlightenSpectra`. -/
def get_default_data_dir (os_is_nt : Bool) (home : String) : List String :=
  if os_is_nt then [home, "Documents", "EnlightenSpectra"]
  else [home, "EnlightenSpectra"]

namespace CloudManager

/-- What one call of `CloudManager.attempt_download` did: the local path it
joined, the S3 object key it requested, success, and the modal messages it
showed. -/
structure DownloadResult where
  local_file : List String
  requested_key : String
  ok : Bool
  messages : List String
deriving DecidableEq, Repr

/-- Embeds `CloudManager.attempt_download` (lines 65-76): build the local
path `<data_dir>/eeprom_backups/<serial>.json`, request the object
`<serial>.json` from the bucket; on any exception show the retrieval-error
modal and report failure, else report success. -/
def attempt_download (env : CloudEnv) (serial_number : String) : DownloadResult :=
  let local_file :=
    get_default_data_dir env.os_is_nt env.home ++
      ["eeprom_backups", serial_number ++ ".json"]
  let key := serial_number ++ ".json"
  if env.download_ok then
    { local_file := local_file, requested_key := key, ok := true, messages := [] }
  else
    { local_file := local_file, requested_key := key, ok := false,
      messages := ["Error retrieving EEPROM file from server."] }

/-- Embeds `CloudManager.perform_restore` (lines 42-57).  It prompts for a
serial number, then calls `setup_connection` → `create_session`, whose
cognito credential calls are wrapped in no `try`: a failure there raises out
of the callback, embedded as `Except.error`.  Otherwise, when a serial was
entered, it attempts the download; on download success it imports the EEPROM
and, whether or not the import succeeded, shows the success modal — the
import-error modal, when shown, is followed by it.  The returned list is the
sequence of modal messages shown. -/
def perform_restore (env : CloudEnv) : Except PyError (List String) :=
  let serial_number := env.prompt_result
  if env.credentials_ok = false then
    Except.error PyError.credentialError
  else
    match serial_number with
    | none => Except.ok []
    | some sn =>
      let dr := attempt_download env sn
      if dr.ok then
        if env.import_ok then
          Except.ok (dr.messages ++ ["EEPROM Restore successful."])
        else
          Except.ok (dr.messages ++
            ["EEPROM Writing Error.", "EEPROM Restore successful."])
      else
        Except.ok dr.messages

end CloudManager

/-! Concrete fixtures used by witnesses and counterexamples. -/

/-- A configured horizontal ROI covering pixels 1 to 3 of a 6-pixel detector. -/
def roi0 : ROI := { start := 1, stop := 4 }

/-- EEPROM with `roi0` configured and a laser present. -/
def eeprom0 : EEPROM := { horizontal_roi := some roi0, has_laser := true }

/-- Settings of a micro spectrometer exposing `roi0` and calibration arrays. -/
def st0 : SpectrometerSettings :=
  { eeprom := eeprom0,
    state := { trigger_source := TRIGGER_SOURCE_INTERNAL },
    hardware_info := { supports_triggering := true },
    is_micro := true,
    wavelengths := some [40, 41, 42, 43, 44, 45],
    wavenumbers := some [50, 51, 52, 53, 54, 55] }

/-- A connected spectrometer with settings `st0`. -/
def spec0 : Spectrometer := { settings := st0 }

/-- Controller with no spectrometer selected. -/
def ctl0 : Ctl :=
  { current_spectrometer := none, doing_expert := false,
    doing_raman := false, is_paused := false }

/-- Controller with `spec0` selected, on the Raman page, paused, expert off. -/
def ctl1 : Ctl :=
  { current_spectrometer := some spec0, doing_expert := false,
    doing_raman := true, is_paused := true }

/-- A full six-array reading bundle of 6 pixels, with per-bundle wavelength
and wavenumber arrays distinct from the calibration arrays in `st0`. -/
def pr0 : ProcessedReading :=
  { processed := some [0, 1, 2, 3, 4, 5],
    raw := some [10, 11, 12, 13, 14, 15],
    dark := some [20, 21, 22, 23, 24, 25],
    reference := some [30, 31, 32, 33, 34, 35],
    wavelengths := some [140, 141, 142, 143, 144, 145],
    wavenumbers := some [150, 151, 152, 153, 154, 155],
    settings := some st0,
    cropped := none }

/-! Helper lemmas. -/

/-- When `HorizROIFeature.crop` is called with an explicit `roi` argument —
as every call inside `process` is — the lookup chain is skipped, no exception
is possible, and the result is `cropArr` mapped over the optional array. -/
theorem crop_given_roi (ctl : Ctl) (s : Option (List α))
    (spec : Option Spectrometer) (r : ROI)
    (settings : Option SpectrometerSettings) :
    HorizROIFeature.crop ctl s spec (some r) settings =
      Except.ok (Option.map (HorizROIFeature.cropArr r) s) := by
  cases s <;> cases settings <;> rfl

/-! Claim theorems. -/

/-- Claim C2: for every non-`None` array and every ROI with `start < end`,
both indices within the array's bounds, `HorizROIFeature.crop` returns the
contiguous Python slice `array[start:end]`, whose length is `end - start`. -/
theorem crop_valid_in_bounds {α : Type} (ctl : Ctl)
    (spec : Option Spectrometer) (settings : Option SpectrometerSettings)
    (r : ROI) (arr : List α)
    (hv : r.start < r.stop) (hs : r.start < arr.length)
    (he : r.stop < arr.length) :
    HorizROIFeature.crop ctl (some arr) spec (some r) settings =
      Except.ok (some ((arr.drop r.start).take (r.stop - r.start))) ∧
    ((arr.drop r.start).take (r.stop - r.start)).length = r.stop - r.start := by
  constructor
  · rw [crop_given_roi]
    have hcond : ¬ (r.valid = false ∨ arr.length ≤ r.start ∨ arr.length ≤ r.stop) := by
      push_neg
      refine ⟨?_, by omega, by omega⟩
      simp [ROI.valid, hv]
    simp [HorizROIFeature.cropArr, hcond, ROI.crop]
  · simp [List.length_take, List.length_drop]
    omega

/-- Witness for C2: cropping `[5, 6, 7, 8]` with ROI `(1, 3)` yields `[6, 7]`
of length `3 - 1 = 2`. -/
theorem crop_valid_in_bounds_witness :
    HorizROIFeature.crop ctl0 (some ([5, 6, 7, 8] : List Int)) none
        (some { start := 1, stop := 3 }) none =
      Except.ok (some [6, 7]) ∧ ([6, 7] : List Int).length = 3 - 1 := by
  have h := crop_valid_in_bounds ctl0 none none { start := 1, stop := 3 }
    ([5, 6, 7, 8] : List Int) (by decide) (by decide) (by decide)
  exact h

/-- Claim C3: when the ROI resolution chain of `HorizROIFeature.crop` yields
no ROI, or yields a ROI that is invalid or out of the array's bounds, `crop`
returns its input array unchanged. -/
theorem crop_identity_when_absent_or_invalid {α : Type} (ctl : Ctl)
    (spec : Option Spectrometer) (roi : Option ROI)
    (settings : Option SpectrometerSettings) (arr : List α) :
    (HorizROIFeature.resolve_roi ctl spec roi settings = Except.ok none →
      HorizROIFeature.crop ctl (some arr) spec roi settings =
        Except.ok (some arr)) ∧
    (∀ r : ROI,
      HorizROIFeature.resolve_roi ctl spec roi settings = Except.ok (some r) →
      (r.valid = false ∨ arr.length ≤ r.start ∨ arr.length ≤ r.stop) →
      HorizROIFeature.crop ctl (some arr) spec roi settings =
        Except.ok (some arr)) := by
  constructor
  · intro h
    simp [HorizROIFeature.crop, h]
  · intro r h hbad
    simp [HorizROIFeature.crop, h, HorizROIFeature.cropArr, hbad]

/-- Witness for C3: with no spectrometer selected and no ROI supplied the
resolution yields none and `crop` is the identity on `[1, 2]`; with the
out-of-bounds ROI `roi0 = (1, 4)` supplied against the 3-element array
`[1, 2, 3]` (`end = 4 ≥ 3`), `crop` is again the identity. -/
theorem crop_identity_witness :
    HorizROIFeature.crop ctl0 (some ([1, 2] : List Int)) none none none =
      Except.ok (some [1, 2]) ∧
    HorizROIFeature.crop ctl0 (some ([1, 2, 3] : List Int)) none (some roi0) none =
      Except.ok (some [1, 2, 3]) := by
  constructor
  · exact (crop_identity_when_absent_or_invalid ctl0 none none none [1, 2]).1 rfl
  · exact (crop_identity_when_absent_or_invalid ctl0 none (some roi0) none
      [1, 2, 3]).2 roi0 rfl (by decide)

/-- Claim C4 (code bug): `HorizROIFeature.crop` is not total — called with a
non-`None` array, no `roi`, no `spec`, and a non-`None` `settings`, line 159
dereferences `spec.settings` under the guard `if roi is None and settings:`
and raises `AttributeError`. -/
theorem crop_raises_on_settings_without_spec :
    HorizROIFeature.crop ctl0 (some ([1, 2, 3] : List Int)) none none (some st0) =
      Except.error PyError.attributeError := rfl

/-- The bundle that `process` actually attaches to `pr0.cropped`: `dark` is
absent, `reference` is the ROI slice of `pr0.raw`, and the wavelength and
wavenumber arrays are slices of the calibration arrays in `st0`, not of the
arrays carried by `pr0`. -/
def prc0 : ReadingData :=
  { processed := some [1, 2, 3],
    raw := some [11, 12, 13],
    dark := none,
    reference := some [11, 12, 13],
    wavelengths := some [41, 42, 43],
    wavenumbers := some [51, 52, 53],
    settings := some st0 }

/-- Claim C1 (code bug): evaluating `process` on the full bundle `pr0` with
ROI `(1, 4)` shows the attached `cropped` bundle `prc0` is not the claimed
per-array slice: `prc0.dark` is `None` (the slice of `pr0.dark` would be
`[21, 22, 23]`), `prc0.reference` is the slice of `pr0.raw` (`[11, 12, 13]`,
not `[31, 32, 33]`), and `prc0.wavelengths`/`wavenumbers` are slices of the
settings' calibration arrays, not of `pr0`'s. -/
theorem process_dark_reference_slip :
    HorizROIFeature.process ctl0 true (some pr0) none =
      some { pr0 with cropped := some prc0 } ∧
    prc0.dark = none ∧
    prc0.reference = some [11, 12, 13] ∧
    pr0.dark = some [20, 21, 22, 23, 24, 25] ∧
    pr0.reference = some [30, 31, 32, 33, 34, 35] ∧
    pr0.raw = some [10, 11, 12, 13, 14, 15] := by
  refine ⟨?_, rfl, rfl, rfl, rfl, rfl⟩
  rfl

/-- Claim C6: `HorizROIFeature.process` touches no field of `pr` other than
`cropped` — on every input the result is the input bundle with only `cropped`
(re)assigned, and in each early-return case (feature disabled, `pr` is
`None`, `pr.processed` is `None`, settings unresolvable, ROI absent) the
bundle is returned entirely unchanged; the embedding is a total function, so
no exception is raised. -/
theorem process_frame_effect (ctl : Ctl) (enabled : Bool)
    (p : ProcessedReading) (settings : Option SpectrometerSettings) :
    (∃ c, HorizROIFeature.process ctl enabled (some p) settings =
        some { p with cropped := c }) ∧
    (enabled = false →
      HorizROIFeature.process ctl enabled (some p) settings = some p) ∧
    (p.processed = none →
      HorizROIFeature.process ctl enabled (some p) settings = some p) ∧
    (HorizROIFeature.process_settings ctl p.settings settings = none →
      HorizROIFeature.process ctl enabled (some p) settings = some p) ∧
    (∀ st, HorizROIFeature.process_settings ctl p.settings settings = some st →
      st.eeprom.get_horizontal_roi = none →
      HorizROIFeature.process ctl enabled (some p) settings = some p) ∧
    HorizROIFeature.process ctl enabled none settings = none := by
  refine ⟨?_, ?_, ?_, ?_, ?_, ?_⟩
  · cases hp : p.processed with
    | none =>
      exact ⟨p.cropped, by cases enabled <;> simp [HorizROIFeature.process, hp]⟩
    | some arr =>
      cases hs : HorizROIFeature.process_settings ctl p.settings settings with
      | none =>
        exact ⟨p.cropped, by
          cases enabled <;> simp [HorizROIFeature.process, hp, hs]⟩
      | some st =>
        cases hr : st.eeprom.get_horizontal_roi with
        | none =>
          exact ⟨p.cropped, by
            cases enabled <;> simp [HorizROIFeature.process, hp, hs, hr]⟩
        | some roi =>
          cases enabled with
          | false => exact ⟨p.cropped, by simp [HorizROIFeature.process]⟩
          | true =>
            refine ⟨some
              { processed := Option.map (HorizROIFeature.cropArr roi) p.processed,
                raw := Option.map (HorizROIFeature.cropArr roi) p.raw,
                dark := none,
                reference := Option.map (HorizROIFeature.cropArr roi) p.raw,
                wavelengths := Option.map (HorizROIFeature.cropArr roi) st.wavelengths,
                wavenumbers := Option.map (HorizROIFeature.cropArr roi) st.wavenumbers,
                settings := some st }, ?_⟩
            simp [HorizROIFeature.process, hp, hs, hr, ReadingData.init]
  · intro h
    simp [HorizROIFeature.process, h]
  · intro h
    cases enabled <;> simp [HorizROIFeature.process, h]
  · intro h
    cases enabled <;> cases hp : p.processed <;>
      simp [HorizROIFeature.process, h, hp]
  · intro st hs hr
    cases enabled <;> cases hp : p.processed <;>
      simp [HorizROIFeature.process, hs, hr, hp]
  · cases enabled <;> rfl

/-- Witness for C6: with the feature disabled, `process` returns `pr0`
unchanged, and on the full bundle `pr0` with the feature enabled the result
is `pr0` with only `cropped` reassigned. -/
theorem process_frame_effect_witness :
    HorizROIFeature.process ctl0 false (some pr0) none = some pr0 ∧
    (∃ c, HorizROIFeature.process ctl0 true (some pr0) none =
      some { pr0 with cropped := c }) := by
  constructor
  · exact (process_frame_effect ctl0 false pr0 none).2.1 rfl
  · exact (process_frame_effect ctl0 true pr0 none).1

/-- Claim C7: toggling twice is side-effect free.  (a) From any state in
which the button is clickable (a spectrometer with a configured horizontal
ROI is selected) and the invariant `enabled = user_requested_enabled`
maintained by `update_visibility` holds, two successive
`HorizROIFeature.button_callback` invocations restore `enabled` and
`user_requested_enabled` to their original values.  (b) When the trigger
source computed by `ExternalTriggerFeature.enable_callback` equals the
device's current `trigger_source`, the callback performs no effect at all —
in particular no `change_device_setting` write. -/
theorem double_toggle_no_residual_effect :
    (∀ (ctl : Ctl) (spec : Spectrometer) (s : HorizROIFeature.State),
      ctl.current_spectrometer = some spec →
      spec.settings.eeprom.has_horizontal_roi = true →
      s.enabled = s.user_requested_enabled →
      (HorizROIFeature.button_callback ctl
          (HorizROIFeature.button_callback ctl s)).enabled = s.enabled ∧
      (HorizROIFeature.button_callback ctl
          (HorizROIFeature.button_callback ctl s)).user_requested_enabled =
        s.user_requested_enabled) ∧
    (∀ (ctl : Ctl) (spec : Spectrometer) (enabled0 checked : Bool),
      ctl.current_spectrometer = some spec →
      (if checked then TRIGGER_SOURCE_EXTERNAL else TRIGGER_SOURCE_INTERNAL) =
        spec.settings.state.trigger_source →
      (ExternalTriggerFeature.enable_callback ctl enabled0 checked).2 = []) := by
  constructor
  · intro ctl spec s hspec hroi hinv
    obtain ⟨e, u, bv, cv⟩ := s
    simp only [HorizROIFeature.State.enabled,
      HorizROIFeature.State.user_requested_enabled] at hinv
    subst hinv
    simp [HorizROIFeature.button_callback, HorizROIFeature.update_visibility,
      hspec, hroi]
  · intro ctl spec enabled0 checked hspec heq
    simp [ExternalTriggerFeature.enable_callback, hspec, ← heq]

/-- Witness for C7: from the state (enabled, requested, hidden, hidden) with
`spec0` (which has a ROI) selected, two button clicks restore both flags; and
with `spec0`'s trigger source internal and the checkbox unchecked the
computed source is internal, so the callback emits no effect. -/
theorem double_toggle_no_residual_effect_witness :
    ((HorizROIFeature.button_callback ctl1
        (HorizROIFeature.button_callback ctl1
          { enabled := true, user_requested_enabled := true,
            button_visible := false, cb_editing_visible := false })).enabled =
      true ∧
     (HorizROIFeature.button_callback ctl1
        (HorizROIFeature.button_callback ctl1
          { enabled := true, user_requested_enabled := true,
            button_visible := false, cb_editing_visible := false
            })).user_requested_enabled = true) ∧
    (ExternalTriggerFeature.enable_callback ctl1 true false).2 = [] := by
  constructor
  · exact double_toggle_no_residual_effect.1 ctl1 spec0
      { enabled := true, user_requested_enabled := true,
        button_visible := false, cb_editing_visible := false } rfl rfl rfl
  · exact double_toggle_no_residual_effect.2 ctl1 spec0 true false rfl rfl

/-- Claim C8: the flags computed by the three `update_visibility` methods are
deterministic pure functions of the device-capability flags, the UI
mode/page, and the prior user request: recomputation is idempotent for
`HorizROIFeature` and `ExternalTriggerFeature`, and whenever a spectrometer
is selected (resp. always, for `RamanModeFeature`) the result is independent
of the rest of the prior mutable state. -/
theorem update_visibility_deterministic :
    (∀ (ctl : Ctl) (s : HorizROIFeature.State),
      HorizROIFeature.update_visibility ctl
          (HorizROIFeature.update_visibility ctl s) =
        HorizROIFeature.update_visibility ctl s) ∧
    (∀ (ctl : Ctl) (spec : Spectrometer) (s1 s2 : HorizROIFeature.State),
      ctl.current_spectrometer = some spec →
      s1.user_requested_enabled = s2.user_requested_enabled →
      HorizROIFeature.update_visibility ctl s1 =
        HorizROIFeature.update_visibility ctl s2) ∧
    (∀ (ctl : Ctl) (e0 : Bool),
      ExternalTriggerFeature.update_visibility ctl
          (ExternalTriggerFeature.update_visibility ctl e0).1 =
        ExternalTriggerFeature.update_visibility ctl e0) ∧
    (∀ (ctl : Ctl) (spec : Spectrometer) (e1 e2 : Bool),
      ctl.current_spectrometer = some spec →
      ExternalTriggerFeature.update_visibility ctl e1 =
        ExternalTriggerFeature.update_visibility ctl e2) ∧
    (∀ (ctl : Ctl) (v1 v2 : Bool),
      RamanModeFeature.update_visibility ctl v1 =
        RamanModeFeature.update_visibility ctl v2) := by
  refine ⟨?_, ?_, ?_, ?_, ?_⟩
  · intro ctl s
    cases hspec : ctl.current_spectrometer with
    | none => simp [HorizROIFeature.update_visibility, hspec]
    | some spec =>
      cases hroi : spec.settings.eeprom.has_horizontal_roi <;>
        simp [HorizROIFeature.update_visibility, hspec, hroi]
  · intro ctl spec s1 s2 hspec hu
    cases hroi : spec.settings.eeprom.has_horizontal_roi <;>
      simp [HorizROIFeature.update_visibility, hspec, hroi, hu]
  · intro ctl e0
    cases hspec : ctl.current_spectrometer with
    | none => simp [ExternalTriggerFeature.update_visibility, hspec]
    | some spec => simp [ExternalTriggerFeature.update_visibility, hspec]
  · intro ctl spec e1 e2 hspec
    simp [ExternalTriggerFeature.update_visibility, hspec]
  · intro ctl v1 v2
    cases hspec : ctl.current_spectrometer <;>
      simp [RamanModeFeature.update_visibility, hspec]

/-- Witness for C8: with `spec0` selected, the recomputed
`HorizROIFeature` flags agree from two prior states differing in `enabled`
and the widget flags, and the `ExternalTriggerFeature` flags agree from the
two possible prior `enabled` values. -/
theorem update_visibility_deterministic_witness :
    HorizROIFeature.update_visibility ctl1
        { enabled := true, user_requested_enabled := false,
          button_visible := true, cb_editing_visible := true } =
      HorizROIFeature.update_visibility ctl1
        { enabled := false, user_requested_enabled := false,
          button_visible := false, cb_editing_visible := false } ∧
    ExternalTriggerFeature.update_visibility ctl1 true =
      ExternalTriggerFeature.update_visibility ctl1 false := by
  constructor
  · exact update_visibility_deterministic.2.1 ctl1 spec0
      { enabled := true, user_requested_enabled := false,
        button_visible := true, cb_editing_visible := true }
      { enabled := false, user_requested_enabled := false,
        button_visible := false, cb_editing_visible := false } rfl rfl
  · exact update_visibility_deterministic.2.2.2.1 ctl1 spec0 true false rfl

/-- A restore attempt in which the user enters a serial number but the
cognito credential exchange inside `create_session` fails. -/
def envCredFail : CloudEnv :=
  { prompt_result := some "WP-00001", credentials_ok := false,
    download_ok := true, import_ok := true, os_is_nt := false,
    home := "/home/user" }

/-- Counterexample to claim C5 as stated: when the credential exchange fails,
`perform_restore` does not convert the failure into a modal message — the
exception raised inside `create_session` propagates out of the callback,
because `setup_connection` and `create_session` contain no `try`/`except`. -/
theorem perform_restore_uncaught_credential_failure :
    CloudManager.perform_restore envCredFail =
      Except.error PyError.credentialError := rfl

/-- Claim C5 as amended: failures of the object download inside
`attempt_download` are caught and converted into the
"Error retrieving EEPROM file from server." modal, and whenever the
credential exchange succeeds `perform_restore` raises nothing; but a failure
of the credential exchange/session setup propagates out of `perform_restore`
uncaught. -/
theorem perform_restore_error_handling (env : CloudEnv) :
    (env.credentials_ok = false →
      CloudManager.perform_restore env = Except.error PyError.credentialError) ∧
    (env.credentials_ok = true →
      ∃ msgs, CloudManager.perform_restore env = Except.ok msgs) ∧
    (∀ sn, env.credentials_ok = true → env.prompt_result = some sn →
      env.download_ok = false →
      CloudManager.perform_restore env =
        Except.ok ["Error retrieving EEPROM file from server."]) := by
  refine ⟨?_, ?_, ?_⟩
  · intro h
    simp [CloudManager.perform_restore, h]
  · intro h
    cases hp : env.prompt_result with
    | none => exact ⟨[], by simp [CloudManager.perform_restore, h, hp]⟩
    | some sn =>
      cases hd : env.download_ok with
      | false =>
        refine ⟨["Error retrieving EEPROM file from server."], ?_⟩
        simp [CloudManager.perform_restore, CloudManager.attempt_download,
          h, hp, hd]
      | true =>
        cases hi : env.import_ok with
        | false =>
          refine ⟨["EEPROM Writing Error.", "EEPROM Restore successful."], ?_⟩
          simp [CloudManager.perform_restore, CloudManager.attempt_download,
            h, hp, hd, hi]
        | true =>
          refine ⟨["EEPROM Restore successful."], ?_⟩
          simp [CloudManager.perform_restore, CloudManager.attempt_download,
            h, hp, hd, hi]
  · intro sn h hp hd
    simp [CloudManager.perform_restore, CloudManager.attempt_download,
      h, hp, hd]

/-- A restore attempt in which the credential exchange succeeds but the
download fails. -/
def envDownloadFail : CloudEnv :=
  { prompt_result := some "WP-00001", credentials_ok := true,
    download_ok := false, import_ok := true, os_is_nt := false,
    home := "/home/user" }

/-- Witness for amended C5: the download failure of `envDownloadFail` is
converted into the retrieval-error modal and no exception escapes. -/
theorem perform_restore_error_handling_witness :
    CloudManager.perform_restore envDownloadFail =
      Except.ok ["Error retrieving EEPROM file from server."] :=
  (perform_restore_error_handling envDownloadFail).2.2 "WP-00001" rfl rfl rfl

/-- Claim C9: `attempt_download` requests the object `<serial>.json` and
joins the local path `<data_dir>/eeprom_backups/<serial>.json`, where
`<data_dir>` is `~/Documents/EnlightenSpectra` on Windows (`os.name == "nt"`)
and `$HOME/EnlightenSpectra` otherwise. -/
theorem attempt_download_path (env : CloudEnv) (serial_number : String) :
    (CloudManager.attempt_download env serial_number).requested_key =
      serial_number ++ ".json" ∧
    (CloudManager.attempt_download env serial_number).local_file =
      (if env.os_is_nt then [env.home, "Documents", "EnlightenSpectra"]
       else [env.home, "EnlightenSpectra"]) ++
        ["eeprom_backups", serial_number ++ ".json"] := by
  cases hd : env.download_ok <;>
    cases hnt : env.os_is_nt <;>
      simp [CloudManager.attempt_download, get_default_data_dir, hd, hnt]

/-- Claim C10: whenever the credential exchange succeeds, a serial number was
entered and the download succeeds, `perform_restore` shows the
"EEPROM Restore successful." modal even when the EEPROM import fails — and in
the import-failure case the "EEPROM Writing Error." modal is shown first,
followed by the success modal. -/
theorem restore_success_message_always_shown (env : CloudEnv) (sn : String)
    (hc : env.credentials_ok = true) (hp : env.prompt_result = some sn)
    (hd : env.download_ok = true) :
    CloudManager.perform_restore env =
      Except.ok (if env.import_ok then ["EEPROM Restore successful."]
        else ["EEPROM Writing Error.", "EEPROM Restore successful."]) := by
  cases hi : env.import_ok <;>
    simp [CloudManager.perform_restore, CloudManager.attempt_download,
      hc, hp, hd, hi]

/-- A restore attempt in which everything succeeds except the EEPROM import. -/
def envImportFail : CloudEnv :=
  { prompt_result := some "WP-00001", credentials_ok := true,
    download_ok := true, import_ok := false, os_is_nt := false,
    home := "/home/user" }

/-- Witness for C10: with the import failing, the writing-error modal is
followed by the success modal. -/
theorem restore_success_message_always_shown_witness :
    CloudManager.perform_restore envImportFail =
      Except.ok ["EEPROM Writing Error.", "EEPROM Restore successful."] :=
  restore_success_message_always_shown envImportFail "WP-00001" rfl rfl rfl

end Enlighten
